import Mathlib

/-!
Shallow embedding of the task-lifecycle core of the novel-task-manager
backend (src/backend/app): the task record model (models/task.py), the
task processor (services/task_processor.py), the timeout monitor
(services/task_monitor.py), the retry endpoint (api/tasks.py) and the
websocket connection manager (api/websocket.py).  Timestamps are modelled
as integers (seconds), the database as a list of task records, and the
per-connection transport as a numeric handle together with an oracle
saying whether a send on that handle succeeds.
-/

namespace NovelTM

/-- `TaskStatus` from models/task.py. -/
inductive TaskStatus
  | pending
  | processing
  | completed
  | failed
deriving DecidableEq, Repr

/-- The `.value` of a `TaskStatus` member (the Python string enum value). -/
def statusValue : TaskStatus → String
  | .pending => "pending"
  | .processing => "processing"
  | .completed => "completed"
  | .failed => "failed"

/-- `LogLevel` from models/task.py. -/
inductive LogLevel
  | info
  | warning
  | error
  | debug
deriving DecidableEq, Repr

/-- The columns of the `tasks` table touched by the processor, monitor and
retry endpoint (models/task.py).  File metadata and audit columns that no
claim mentions are omitted; timestamps are integer seconds. -/
structure Task where
  id : String
  status : TaskStatus
  progress : Nat
  startedAt : Option Int
  completedAt : Option Int
  resultUrl : Option String
  errorMessage : Option String
  updatedAt : Int
deriving DecidableEq, Repr

/-- A `task_logs` row as written by the monitor and processor
(models/task.py, `TaskLog`); `details` carries the
`(elapsed_seconds, timeout_seconds)` payload when present. -/
structure LogEntry where
  task_id : String
  log_level : LogLevel
  message : String
  details : Option (Int × Int)
deriving DecidableEq, Repr

/-- The outbound `task_update` message shape sent through
`notify_task_update` (api/websocket.py). -/
structure TaskUpdateMessage where
  task_id : String
  status : String
  progress : Nat
  result_url : Option String
  error_message : Option String
deriving DecidableEq, Repr

/-- `settings.TASK_TIMEOUT_SECONDS` (config.py). -/
def TASK_TIMEOUT_SECONDS : Int := 300

/-- `progress_increment` in `TaskProcessor.simulate_processing`. -/
def progress_increment : Nat := 3

/-- Python truthiness of an optional string argument (`if result_url:`):
true iff present and non-empty. -/
def truthy : Option String → Bool
  | none => false
  | some s => s ≠ ""

/-- `TaskProcessor.update_task_status` (task_processor.py lines 145-183):
sets `status` and `updated_at`, sets `started_at` on PROCESSING and
`completed_at` on COMPLETED/FAILED, conditionally overwrites `result_url`
and `error_message` when the arguments are truthy, and emits the websocket
notification whose progress is 100 for COMPLETED and 0 otherwise.
Returns the updated record together with the emitted message. -/
def update_task_status (t : Task) (st : TaskStatus) (now : Int)
    (result_url : Option String) (error_message : Option String) :
    Task × TaskUpdateMessage :=
  let t1 : Task := { t with status := st, updatedAt := now }
  let t2 : Task :=
    match st with
    | .processing => { t1 with startedAt := some now }
    | .completed => { t1 with completedAt := some now }
    | .failed => { t1 with completedAt := some now }
    | .pending => t1
  let t3 : Task := if truthy result_url then { t2 with resultUrl := result_url } else t2
  let t4 : Task := if truthy error_message then { t3 with errorMessage := error_message } else t3
  (t4,
   { task_id := t.id
     status := statusValue st
     progress := if st = .completed then 100 else 0
     result_url := result_url
     error_message := error_message })

/-- `TaskProcessor.update_task_progress` (task_processor.py lines 185-198). -/
def update_task_progress (t : Task) (p : Nat) (now : Int) : Task :=
  { t with progress := p, updatedAt := now }

/-- The standardized timeout error message, both in the monitor
(task_monitor.py line 60) and the processor timeout branch
(task_processor.py line 55): `TASK_TIMEOUT_SECONDS // 60` minutes. -/
def timeoutErrorMessage : String :=
  "Task exceeded maximum processing time of " ++
    toString (TASK_TIMEOUT_SECONDS / 60) ++ " minutes"

/-- The per-task write performed by `TaskMonitor.check_timeouts` on an
overdue task (task_monitor.py lines 58-62). -/
def monitor_fail_task (t : Task) (now : Int) : Task :=
  { t with status := .failed
           errorMessage := some timeoutErrorMessage
           completedAt := some now
           updatedAt := now }

/-- The timeout log row added by the monitor for an overdue task
(task_monitor.py lines 64-71); `elapsed` is `now - started_at`. -/
def timeoutLog (t : Task) (now : Int) : LogEntry :=
  let elapsed : Int := now - t.startedAt.getD 0
  { task_id := t.id
    log_level := .error
    message := "Task automatically failed due to timeout after " ++
      toString (elapsed / 60) ++ " minutes"
    details := some (elapsed, TASK_TIMEOUT_SECONDS) }

/-- The failure notification the monitor publishes for an overdue task
after updating it (task_monitor.py lines 73-79): status "failed", the
task's stored progress, no result url, the freshly written error text. -/
def monitorFailMessage (t : Task) : TaskUpdateMessage :=
  { task_id := t.id
    status := statusValue .failed
    progress := t.progress
    result_url := none
    error_message := t.errorMessage }

/-- The overdue filter of `TaskMonitor.check_timeouts` (task_monitor.py
lines 43-51): status PROCESSING, `started_at` non-null and strictly before
`now - TASK_TIMEOUT_SECONDS`. -/
def isOverdue (t : Task) (now : Int) : Bool :=
  t.status = TaskStatus.processing &&
    match t.startedAt with
    | some s => s < now - TASK_TIMEOUT_SECONDS
    | none => false

/-- The result of one sweep of `TaskMonitor.check_timeouts` over the task
table: the table after the sweep, the log rows added, the notifications
published, and whether the sweep's exception handler fired. -/
structure SweepResult where
  tasks : List Task
  logs : List LogEntry
  notifs : List TaskUpdateMessage
  errorCaught : Bool
deriving DecidableEq, Repr

/-- `TaskMonitor.check_timeouts` (task_monitor.py lines 35-88) over a task
table, with a fault oracle `fails` saying whether evaluating a given
overdue task raises.  The whole per-task loop runs inside one
`try ... except` whose handler logs and rolls back the session, so a fault
while evaluating any overdue task aborts the rest of the loop and reverts
every uncommitted task update and log row; notifications already awaited
for earlier tasks in the loop have been sent and are not revoked.  With no
fault, every overdue task is rewritten by `monitor_fail_task`, gets a
`timeoutLog` row, and has `monitorFailMessage` published; the exception is
caught inside the method, so the caller always gets a result back. -/
def check_timeouts (tasks : List Task) (now : Int) (fails : String → Bool) :
    SweepResult :=
  let overdue := tasks.filter (fun t => isOverdue t now)
  if overdue.any (fun t => fails t.id) then
    { tasks := tasks
      logs := []
      notifs := (overdue.takeWhile (fun t => !fails t.id)).map
        (fun t => monitorFailMessage (monitor_fail_task t now))
      errorCaught := true }
  else
    { tasks := tasks.map (fun t => if isOverdue t now then monitor_fail_task t now else t)
      logs := overdue.map (fun t => timeoutLog t now)
      notifs := overdue.map (fun t => monitorFailMessage (monitor_fail_task t now))
      errorCaught := false }

/-- The persisted task states written during the `while progress < 100`
loop of `TaskProcessor.simulate_processing` (task_processor.py lines
99-134), in order.  `p` is the local `progress` variable, `k` counts loop
iterations, and `failAt = some k` models an external writer (the timeout
monitor, or a PATCH from api/tasks.py) setting the task to FAILED between
iteration k-1 and the `refresh` re-read at the top of iteration k; the
loop observes FAILED at that re-read and returns without further writes.
Otherwise the body clamps `p + progress_increment` to 100, persists it via
`update_task_progress` and continues.  `fuel` bounds the recursion; 101
iterations always suffice from `p = 0`. -/
def simulate_trace : Nat → Task → Nat → Nat → Option Nat → Int → List Task
  | 0, _, _, _, _, _ => []
  | fuel + 1, t, p, k, failAt, now =>
    if p < 100 then
      if failAt = some k then
        [monitor_fail_task t now]
      else if t.status = TaskStatus.failed then
        []
      else
        let p1 := min (p + progress_increment) 100
        let t1 := update_task_progress t p1 now
        t1 :: simulate_trace fuel t1 p1 (k + 1) failAt now
    else []

/-- The persisted task states of one completion-path run of
`TaskProcessor.process_task` (task_processor.py lines 16-48): the
PROCESSING write, the simulate-loop writes (with possible external
failure, see `simulate_trace`), then — because `process_task` marks the
task COMPLETED whenever `simulate_processing` returns without raising —
the final COMPLETED write with `result_url = "/results/" ++ id`. -/
def process_trace (t0 : Task) (failAt : Option Nat) (now : Int) : List Task :=
  let t1 := (update_task_status t0 .processing now none none).1
  let body := simulate_trace 101 t1 0 0 failAt now
  let tlast := body.getLastD t1
  let t2 := (update_task_status tlast .completed now
    (some ("/results/" ++ t0.id)) none).1
  t1 :: body ++ [t2]

/-- Outcome of the retry endpoint (api/tasks.py lines 286-324):
404 when the task id is unknown, 400 when the status is neither FAILED nor
COMPLETED, success otherwise. -/
inductive RetryOutcome
  | notFound
  | invalidState
  | ok
deriving DecidableEq, Repr

/-- The reset applied by `retry_task` on success (api/tasks.py lines
308-315). -/
def retry_reset (t : Task) (now : Int) : Task :=
  { t with status := .pending
           progress := 0
           errorMessage := none
           resultUrl := none
           startedAt := none
           completedAt := none
           updatedAt := now }

/-- `retry_task` (api/tasks.py lines 286-324) over a task table: look the
task up by id; 404 if absent; 400 (table untouched) unless the status is
FAILED or COMPLETED; otherwise persist `retry_reset`. -/
def retry_task (db : List Task) (task_id : String) (now : Int) :
    RetryOutcome × List Task :=
  match db.find? (fun t => t.id = task_id) with
  | none => (.notFound, db)
  | some t =>
    if t.status = TaskStatus.failed ∨ t.status = TaskStatus.completed then
      (.ok, db.map (fun u => if u.id = task_id then retry_reset u now else u))
    else
      (.invalidState, db)

/-! ### ConnectionManager (api/websocket.py)

`active_connections : Dict[str, WebSocket]` is modelled as an association
list from client id to a numeric websocket handle (Python dicts preserve
insertion order), and `task_subscribers : Dict[str, Set[str]]` as an
association list from task id to a duplicate-free list of client ids.
Whether `send_text` on a given handle succeeds is an oracle
`sendOk : Nat → Bool`. -/

/-- The mutable state of `ConnectionManager`. -/
structure Hub where
  active : List (String × Nat)
  subscribers : List (String × List String)
deriving DecidableEq, Repr

/-- The value registered for a client id in `active_connections`. -/
def lookupActive (h : Hub) (c : String) : Option Nat :=
  (h.active.find? (fun p => p.1 = c)).map (·.2)

/-- The subscriber set recorded for a task id (empty when the key is
absent from `task_subscribers`). -/
def subsOf (h : Hub) (tid : String) : List String :=
  ((h.subscribers.find? (fun p => p.1 = tid)).map (·.2)).getD []

/-- `ConnectionManager.connect` (websocket.py lines 18-20):
`active_connections[client_id] = websocket` — a plain dict assignment that
replaces any existing entry for the key and never fails. -/
def connect (h : Hub) (c : String) (ws : Nat) : Hub :=
  { h with active :=
      if h.active.any (fun p => p.1 = c) then
        h.active.map (fun p => if p.1 = c then (c, ws) else p)
      else
        h.active ++ [(c, ws)] }

/-- The per-task-entry effect of `ConnectionManager.disconnect`
(websocket.py lines 26-30): remove the client from the set when present,
and drop the whole entry when the set becomes empty. -/
def disconnect_entry (c : String) (p : String × List String) :
    Option (String × List String) :=
  if c ∈ p.2 then
    let subs := p.2.filter (fun d => d ≠ c)
    if subs = [] then none else some (p.1, subs)
  else some p

/-- `ConnectionManager.disconnect` (websocket.py lines 22-30): delete the
client from `active_connections` when present, then sweep every task's
subscriber set. -/
def disconnect (h : Hub) (c : String) : Hub :=
  { active := h.active.filter (fun p => p.1 ≠ c)
    subscribers := h.subscribers.filterMap (disconnect_entry c) }

/-- `ConnectionManager.subscribe_to_task` (websocket.py lines 32-36):
create the task's entry when absent, then `set.add` the client. -/
def subscribe_to_task (h : Hub) (c : String) (tid : String) : Hub :=
  { h with subscribers :=
      if h.subscribers.any (fun p => p.1 = tid) then
        h.subscribers.map (fun p =>
          if p.1 = tid then (p.1, if c ∈ p.2 then p.2 else p.2 ++ [c]) else p)
      else
        h.subscribers ++ [(tid, [c])] }

/-- `ConnectionManager.unsubscribe_from_task` (websocket.py lines 37-41):
remove the client from the named task's set when present; drop the entry
when it becomes empty. -/
def unsubscribe_from_task (h : Hub) (c : String) (tid : String) : Hub :=
  { h with subscribers := h.subscribers.filterMap (fun p =>
      if p.1 = tid then disconnect_entry c p else some p) }

/-- `ConnectionManager.broadcast_task_update` (websocket.py lines 48-62):
iterate over the task's subscribers; for each one that is registered in
`active_connections`, attempt the send — a failure is caught and the
client collected instead of aborting the loop; after the loop every
collected client is passed to `disconnect`.  Returns the final hub state
and the list of clients whose send succeeded. -/
def broadcast_task_update (h : Hub) (tid : String) (sendOk : Nat → Bool) :
    Hub × List String :=
  match h.subscribers.find? (fun p => p.1 = tid) with
  | none => (h, [])
  | some entry =>
    let delivered := entry.2.filter (fun c =>
      match lookupActive h c with
      | some ws => sendOk ws
      | none => false)
    let stale := entry.2.filter (fun c =>
      match lookupActive h c with
      | some ws => !sendOk ws
      | none => false)
    (stale.foldl disconnect h, delivered)

/-! ### Sample records and auxiliary predicates used by the theorems -/

/-- A freshly created task record (api/tasks.py lines 67-76): PENDING,
progress 0, no timestamps, no result, no error. -/
def sampleTask : Task :=
  { id := "t1", status := .pending, progress := 0, startedAt := none,
    completedAt := none, resultUrl := none, errorMessage := none, updatedAt := 0 }

/-- A PROCESSING task carrying a stale error message from a previous
failure. -/
def staleErrTask : Task :=
  { id := "t2", status := .processing, progress := 90, startedAt := some 0,
    completedAt := none, resultUrl := none, errorMessage := some "previous failure",
    updatedAt := 0 }

/-- An overdue PROCESSING task (started at 0, checked at 400 with a 300s
timeout). -/
def overdueTask1 : Task :=
  { id := "o1", status := .processing, progress := 40, startedAt := some 0,
    completedAt := none, resultUrl := none, errorMessage := none, updatedAt := 10 }

/-- A second overdue PROCESSING task. -/
def overdueTask2 : Task :=
  { id := "o2", status := .processing, progress := 70, startedAt := some 50,
    completedAt := none, resultUrl := none, errorMessage := none, updatedAt := 60 }

/-- A PENDING task that no sweep should touch. -/
def freshTask : Task :=
  { id := "f1", status := .pending, progress := 0, startedAt := none,
    completedAt := none, resultUrl := none, errorMessage := none, updatedAt := 0 }

/-- A FAILED task eligible for retry. -/
def failedTask : Task :=
  { id := "r1", status := .failed, progress := 33, startedAt := some 5,
    completedAt := some 50, resultUrl := none, errorMessage := some "boom",
    updatedAt := 50 }

/-- Boolean check that the progress fields of a list of task states are
non-decreasing, starting from `prev`. -/
def progressMonoT : Nat → List Task → Bool
  | _, [] => true
  | prev, s :: ss => if prev ≤ s.progress then progressMonoT s.progress ss else false

/-- The connection id is absent from every task's subscriber set — the
post-disconnect invariant of the notification hub. -/
def noSub (h : Hub) (c : String) : Prop := ∀ p ∈ h.subscribers, c ∉ p.2

/-- No key of `task_subscribers` maps to an empty subscriber set. -/
def hubInv (h : Hub) : Bool := h.subscribers.all (fun p => !p.2.isEmpty)

/-- A hub with two live connections both subscribed to task "t". -/
def hubAB : Hub :=
  { active := [("A", 1), ("B", 2)], subscribers := [("t", ["A", "B"])] }

/-- A hub in which connection "A" appears nowhere. -/
def hubNoA : Hub :=
  { active := [("B", 2)], subscribers := [("t", ["B"])] }

/-- A hub with "A" registered with websocket handle 1. -/
def hubA : Hub :=
  { active := [("A", 1)], subscribers := [] }

/-! ### Lemmas about the processor's progress writes -/

theorem update_task_status_progress (t : Task) (st : TaskStatus) (now : Int)
    (ru em : Option String) : (update_task_status t st now ru em).1.progress = t.progress := by
  simp only [update_task_status]
  cases st <;> by_cases h1 : truthy ru <;> by_cases h2 : truthy em <;> simp [h1, h2]

theorem progressMonoT_snoc (l : List Task) :
    ∀ (prev : Nat) (d x : Task), progressMonoT prev l = true → d.progress = prev →
      (l.getLastD d).progress ≤ x.progress → progressMonoT prev (l ++ [x]) = true := by
  induction l with
  | nil =>
    intro prev d x _ hd hle
    simp only [List.getLastD_nil] at hle
    simp only [List.nil_append, progressMonoT]
    rw [if_pos (hd ▸ hle)]
  | cons a l ih =>
    intro prev d x h hd hle
    simp only [progressMonoT] at h
    by_cases hpa : prev ≤ a.progress
    · rw [if_pos hpa] at h
      simp only [List.cons_append, progressMonoT]
      rw [if_pos hpa]
      refine ih a.progress a x h rfl ?_
      rwa [List.getLastD_cons] at hle
    · rw [if_neg hpa] at h
      exact absurd h (by simp)

theorem simulate_trace_invariant (failAt : Option Nat) (now : Int) :
    ∀ (fuel : Nat) (t : Task) (p k : Nat), t.progress ≤ p → p ≤ 100 →
      ((simulate_trace fuel t p k failAt now).all
          (fun s => decide (s.progress ≤ 100)) = true) ∧
      progressMonoT t.progress (simulate_trace fuel t p k failAt now) = true ∧
      ((simulate_trace fuel t p k failAt now).getLastD t).progress ≤ 100 := by
  intro fuel
  induction fuel with
  | zero =>
    intro t p k h1 h2
    simp [simulate_trace, progressMonoT]
    omega
  | succ n ih =>
    intro t p k h1 h2
    by_cases hp : p < 100
    · by_cases hf : failAt = some k
      · simp [simulate_trace, hp, hf, monitor_fail_task, progressMonoT]
        omega
      · by_cases hs : t.status = TaskStatus.failed
        · simp [simulate_trace, hp, hf, hs, progressMonoT]
          omega
        · have hle : p ≤ min (p + progress_increment) 100 := by
            simp only [progress_increment]
            omega
          have hle2 : min (p + progress_increment) 100 ≤ 100 := by omega
          obtain ⟨a, b, c⟩ := ih (update_task_progress t (min (p + progress_increment) 100) now)
            (min (p + progress_increment) 100) (k + 1)
            (by simp [update_task_progress]) hle2
          have htr : simulate_trace (n + 1) t p k failAt now =
              update_task_progress t (min (p + progress_increment) 100) now ::
                simulate_trace n (update_task_progress t (min (p + progress_increment) 100) now)
                  (min (p + progress_increment) 100) (k + 1) failAt now := by
            simp [simulate_trace, hp, hf, hs]
          rw [htr]
          refine ⟨?_, ?_, ?_⟩
          · simp only [List.all_cons, Bool.and_eq_true, decide_eq_true_eq]
            refine ⟨?_, a⟩
            simp only [update_task_progress]
            omega
          · simp only [progressMonoT, update_task_progress]
            rw [if_pos (by omega : t.progress ≤ min (p + progress_increment) 100)]
            simpa [update_task_progress] using b
          · rw [List.getLastD_cons]
            exact c
    · simp [simulate_trace, hp, progressMonoT]
      omega

/-- C1: the claim states that a run observing a concurrent `Failed` status
aborts without writing `Completed` and that completing an already-failed
task is skipped.  The code refutes it: `simulate_processing` does return
early when the refresh observes FAILED, but `process_task` then
unconditionally calls `update_task_status(COMPLETED)` — a blind UPDATE
with no status guard — so a concrete run whose trace contains a FAILED
state nevertheless ends with status COMPLETED. -/
theorem failed_task_ends_completed :
    ((process_trace sampleTask (some 1) 400).any
        (fun s => decide (s.status = TaskStatus.failed)) = true) ∧
    ((process_trace sampleTask (some 1) 400).getLastD sampleTask).status =
      TaskStatus.completed ∧
    ((process_trace sampleTask (some 1) 400).getLastD sampleTask).errorMessage =
      some timeoutErrorMessage := by decide

/-- C2: along every persisted state of a processor run (PROCESSING write,
simulate-loop progress writes, any concurrent monitor failure write, final
COMPLETED write), the task's progress stays at most 100 (it is a `Nat`, so
at least 0) and is non-decreasing, for a task that starts with progress 0. -/
theorem progress_bounded_and_monotone (t0 : Task) (failAt : Option Nat) (now : Int)
    (h0 : t0.progress = 0) :
    ((process_trace t0 failAt now).all (fun s => decide (s.progress ≤ 100)) = true) ∧
    progressMonoT t0.progress (process_trace t0 failAt now) = true := by
  have ht1 : (update_task_status t0 .processing now none none).1.progress = 0 := by
    rw [update_task_status_progress]; exact h0
  obtain ⟨ha, hm, hl⟩ := simulate_trace_invariant failAt now 101
    (update_task_status t0 .processing now none none).1 0 0 (by omega) (by omega)
  have hdef : process_trace t0 failAt now =
      (update_task_status t0 .processing now none none).1 ::
        simulate_trace 101 (update_task_status t0 .processing now none none).1 0 0 failAt now ++
        [(update_task_status
            ((simulate_trace 101 (update_task_status t0 .processing now none none).1
                0 0 failAt now).getLastD
              (update_task_status t0 .processing now none none).1)
            .completed now (some ("/results/" ++ t0.id)) none).1] := rfl
  have ht2 : (update_task_status
      ((simulate_trace 101 (update_task_status t0 .processing now none none).1
          0 0 failAt now).getLastD
        (update_task_status t0 .processing now none none).1)
      .completed now (some ("/results/" ++ t0.id)) none).1.progress =
      ((simulate_trace 101 (update_task_status t0 .processing now none none).1
          0 0 failAt now).getLastD
        (update_task_status t0 .processing now none none).1).progress :=
    update_task_status_progress ..
  rw [hdef]
  constructor
  · have h2le : (update_task_status
        ((simulate_trace 101 (update_task_status t0 .processing now none none).1
            0 0 failAt now).getLastD
          (update_task_status t0 .processing now none none).1)
        .completed now (some ("/results/" ++ t0.id)) none).1.progress ≤ 100 := by
      rw [ht2]; exact hl
    simp only [List.all_cons, List.all_append, Bool.and_eq_true, decide_eq_true_eq,
      List.all_nil, Bool.and_true]
    exact ⟨⟨by omega, ha⟩, h2le⟩
  · simp only [List.cons_append, progressMonoT]
    rw [if_pos (by omega : t0.progress ≤ (update_task_status t0 .processing now none none).1.progress)]
    refine progressMonoT_snoc _ _ _ _ ?_ rfl ?_
    · exact hm
    · rw [ht2]

/-- Witness for C2 at a concrete input: the freshly created sample task
run to completion with no interference. -/
theorem progress_bounded_and_monotone_witness :
    sampleTask.progress = 0 ∧
    (((process_trace sampleTask none 400).all
        (fun s => decide (s.progress ≤ 100)) = true) ∧
      progressMonoT sampleTask.progress (process_trace sampleTask none 400) = true) :=
  ⟨rfl, progress_bounded_and_monotone sampleTask none 400 rfl⟩

/-- C8 counterexample: the claim says the Processing → Completed transition
clears any stale `errorMessage`, but `update_task_status` only overwrites
`error_message` when the argument is truthy, and the completion call passes
`None` — so a stale error survives completion. -/
theorem completed_keeps_stale_error :
    ((update_task_status staleErrTask .completed 400 (some "/results/t2") none).1.errorMessage =
      some "previous failure") ∧
    ¬ ((update_task_status staleErrTask .completed 400 (some "/results/t2") none).1.errorMessage =
      none) := by decide

/-- C8 amended: on the transition to Completed the system sets
`completedAt` and `resultLocation` and emits a final notification with
progress 100, but a stale `errorMessage` left on the record is preserved,
not cleared. -/
theorem update_completed_spec (t : Task) (now : Int) (url : String) (hu : url ≠ "") :
    (update_task_status t .completed now (some url) none).1.status = TaskStatus.completed ∧
    (update_task_status t .completed now (some url) none).1.completedAt = some now ∧
    (update_task_status t .completed now (some url) none).1.resultUrl = some url ∧
    (update_task_status t .completed now (some url) none).1.errorMessage = t.errorMessage ∧
    (update_task_status t .completed now (some url) none).2.progress = 100 ∧
    (update_task_status t .completed now (some url) none).2.status = "completed" := by
  simp [update_task_status, truthy, hu, statusValue]

/-- Witness for C8's amended theorem at a concrete input. -/
theorem update_completed_spec_witness :
    "/results/t2" ≠ "" ∧
    ((update_task_status staleErrTask .completed 400 (some "/results/t2") none).1.status =
        TaskStatus.completed ∧
      (update_task_status staleErrTask .completed 400 (some "/results/t2") none).1.completedAt =
        some 400 ∧
      (update_task_status staleErrTask .completed 400 (some "/results/t2") none).1.resultUrl =
        some "/results/t2" ∧
      (update_task_status staleErrTask .completed 400 (some "/results/t2") none).1.errorMessage =
        staleErrTask.errorMessage ∧
      (update_task_status staleErrTask .completed 400 (some "/results/t2") none).2.progress = 100 ∧
      (update_task_status staleErrTask .completed 400 (some "/results/t2") none).2.status =
        "completed") :=
  ⟨by decide, update_completed_spec staleErrTask 400 "/results/t2" (by decide)⟩

/-- A fault-free sweep applies `monitor_fail_task` to exactly the overdue
tasks and records one log row and one notification per overdue task. -/
theorem clean_sweep_eq (tasks : List Task) (now : Int) :
    check_timeouts tasks now (fun _ => false) =
      { tasks := tasks.map (fun u => if isOverdue u now then monitor_fail_task u now else u)
        logs := (tasks.filter (fun u => isOverdue u now)).map (fun u => timeoutLog u now)
        notifs := (tasks.filter (fun u => isOverdue u now)).map
          (fun u => monitorFailMessage (monitor_fail_task u now))
        errorCaught := false } := by
  simp [check_timeouts]

/-- An overdue task in the table is rewritten by a fault-free sweep. -/
theorem overdue_mem_clean_sweep (tasks : List Task) (now : Int) (t : Task)
    (ht : t ∈ tasks) (hov : isOverdue t now = true) :
    monitor_fail_task t now ∈ (check_timeouts tasks now fun _ => false).tasks := by
  rw [clean_sweep_eq]
  exact List.mem_map.mpr ⟨t, ht, by rw [if_pos hov]⟩

/-- C3: one fault-free sweep of `TaskMonitor.check_timeouts` transitions
every overdue PROCESSING task (non-null `startedAt` older than
`now - TASK_TIMEOUT_SECONDS`) to FAILED with `completedAt` set and the
standardized error message naming the configured limit, records an ERROR
log entry carrying elapsed seconds and the configured limit, and publishes
a failure notification; a task that is not overdue appears unchanged in
the resulting table. -/
theorem check_timeouts_spec (tasks : List Task) (now : Int) (t : Task)
    (ht : t ∈ tasks) :
    (isOverdue t now = true →
       monitor_fail_task t now ∈ (check_timeouts tasks now fun _ => false).tasks ∧
       (monitor_fail_task t now).status = TaskStatus.failed ∧
       (monitor_fail_task t now).completedAt = some now ∧
       (monitor_fail_task t now).errorMessage = some timeoutErrorMessage ∧
       (monitor_fail_task t now).progress = t.progress ∧
       timeoutLog t now ∈ (check_timeouts tasks now fun _ => false).logs ∧
       (timeoutLog t now).log_level = LogLevel.error ∧
       (timeoutLog t now).details = some (now - t.startedAt.getD 0, TASK_TIMEOUT_SECONDS) ∧
       monitorFailMessage (monitor_fail_task t now) ∈
         (check_timeouts tasks now fun _ => false).notifs ∧
       (monitorFailMessage (monitor_fail_task t now)).status = "failed" ∧
       (monitorFailMessage (monitor_fail_task t now)).error_message =
         some timeoutErrorMessage) ∧
    (isOverdue t now = false → t ∈ (check_timeouts tasks now fun _ => false).tasks) := by
  constructor
  · intro hov
    refine ⟨overdue_mem_clean_sweep tasks now t ht hov, rfl, rfl, rfl, rfl, ?_, rfl, rfl,
      ?_, rfl, rfl⟩
    · rw [clean_sweep_eq]
      exact List.mem_map.mpr ⟨t, List.mem_filter.mpr ⟨ht, hov⟩, rfl⟩
    · rw [clean_sweep_eq]
      exact List.mem_map.mpr ⟨t, List.mem_filter.mpr ⟨ht, hov⟩, rfl⟩
  · intro hov
    rw [clean_sweep_eq]
    refine List.mem_map.mpr ⟨t, ht, ?_⟩
    rw [hov]
    rfl

/-- Witness for C3 at a concrete input: a table with one overdue and one
fresh task, swept at time 400 with the 300-second timeout. -/
theorem check_timeouts_spec_witness :
    overdueTask1 ∈ [overdueTask1, freshTask] ∧ isOverdue overdueTask1 400 = true ∧
    monitor_fail_task overdueTask1 400 ∈
      (check_timeouts [overdueTask1, freshTask] 400 fun _ => false).tasks :=
  ⟨by decide, by decide,
    ((check_timeouts_spec [overdueTask1, freshTask] 400 overdueTask1 (by decide)).1
      (by decide)).1⟩

/-- C4: retry succeeds iff the task exists and is FAILED or COMPLETED; on
success the persisted record is reset to PENDING with progress 0 and
cleared error, result and start/completion timestamps; retry of a PENDING
or PROCESSING task is rejected with the table left untouched; retry of an
unknown id reports not-found with the table left untouched. -/
theorem retry_task_spec (db : List Task) (tid : String) (now : Int) :
    (db.find? (fun u => u.id = tid) = none →
       (retry_task db tid now).1 = RetryOutcome.notFound ∧
       (retry_task db tid now).2 = db) ∧
    (∀ t, db.find? (fun u => u.id = tid) = some t →
       ((retry_task db tid now).1 = RetryOutcome.ok ↔
          (t.status = TaskStatus.failed ∨ t.status = TaskStatus.completed)) ∧
       ((t.status = TaskStatus.failed ∨ t.status = TaskStatus.completed) →
          retry_reset t now ∈ (retry_task db tid now).2 ∧
          (retry_reset t now).status = TaskStatus.pending ∧
          (retry_reset t now).progress = 0 ∧
          (retry_reset t now).errorMessage = none ∧
          (retry_reset t now).resultUrl = none ∧
          (retry_reset t now).startedAt = none ∧
          (retry_reset t now).completedAt = none) ∧
       ((t.status = TaskStatus.pending ∨ t.status = TaskStatus.processing) →
          (retry_task db tid now).1 = RetryOutcome.invalidState ∧
          (retry_task db tid now).2 = db)) := by
  constructor
  · intro h
    simp [retry_task, h]
  · intro t hf
    have htid : t.id = tid := by simpa using List.find?_some hf
    have hmem : t ∈ db := List.mem_of_find?_eq_some hf
    by_cases hst : t.status = TaskStatus.failed ∨ t.status = TaskStatus.completed
    · refine ⟨by simp [retry_task, hf, hst], fun _ => ?_, fun hpp => ?_⟩
      · refine ⟨?_, rfl, rfl, rfl, rfl, rfl, rfl⟩
        simp only [retry_task, hf, if_pos hst]
        exact List.mem_map.mpr ⟨t, hmem, by rw [if_pos htid]⟩
      · exfalso
        rcases hst with h1 | h1 <;> rcases hpp with h2 | h2 <;> rw [h1] at h2 <;>
          exact absurd h2 (by decide)
    · refine ⟨by simp [retry_task, hf, hst], fun hok => absurd hok hst, fun _ => ?_⟩
      simp [retry_task, hf, hst]

/-- Witness for C4 at a concrete input: retrying a FAILED task. -/
theorem retry_task_spec_witness :
    [failedTask].find? (fun u => u.id = "r1") = some failedTask ∧
    (failedTask.status = TaskStatus.failed ∨ failedTask.status = TaskStatus.completed) ∧
    retry_reset failedTask 60 ∈ (retry_task [failedTask] "r1" 60).2 :=
  ⟨by decide, Or.inl (by decide),
    (((retry_task_spec [failedTask] "r1" 60).2 failedTask (by decide)).2.1
      (Or.inl (by decide))).1⟩

/-- C7 counterexample: the claim says a failure while processing one
overdue task does not prevent the remaining overdue tasks in the same
cycle from being failed.  The code wraps the whole per-task loop of
`check_timeouts` in a single try/except whose handler rolls the session
back, so a fault on the first overdue task leaves the second one still
PROCESSING after the sweep. -/
theorem sweep_fault_blocks_rest :
    isOverdue overdueTask2 400 = true ∧
    (check_timeouts [overdueTask1, overdueTask2] 400 fun i => i = "o1").tasks =
      [overdueTask1, overdueTask2] ∧
    overdueTask2.status = TaskStatus.processing ∧
    (check_timeouts [overdueTask1, overdueTask2] 400 fun i => i = "o1").errorCaught =
      true := by decide

/-- C7 amended: a fault while evaluating one overdue task aborts the rest
of that sweep — the sweep's exception handler catches the fault and rolls
the cycle's updates back, leaving the whole table (including the remaining
overdue tasks) unchanged — and subsequent sweeps are unaffected: a later
fault-free sweep fails every overdue task. -/
theorem sweep_fault_contained (tasks : List Task) (now : Int) (fails : String → Bool)
    (hf : (tasks.filter (fun t => isOverdue t now)).any (fun t => fails t.id) = true) :
    (check_timeouts tasks now fails).errorCaught = true ∧
    (check_timeouts tasks now fails).tasks = tasks ∧
    (∀ t ∈ tasks, isOverdue t now = true →
       monitor_fail_task t now ∈
         (check_timeouts (check_timeouts tasks now fails).tasks now fun _ => false).tasks) := by
  have hc : check_timeouts tasks now fails =
      { tasks := tasks
        logs := []
        notifs := ((tasks.filter (fun t => isOverdue t now)).takeWhile
          (fun t => !fails t.id)).map
            (fun t => monitorFailMessage (monitor_fail_task t now))
        errorCaught := true } := by
    simp [check_timeouts, hf]
  refine ⟨by rw [hc], by rw [hc], fun t ht hov => ?_⟩
  rw [hc]
  exact overdue_mem_clean_sweep tasks now t ht hov

/-- Witness for C7's amended theorem: two overdue tasks, fault on the
first. -/
theorem sweep_fault_contained_witness :
    (([overdueTask1, overdueTask2].filter (fun t => isOverdue t 400)).any
        (fun t => t.id = "o1")) = true ∧
    (check_timeouts [overdueTask1, overdueTask2] 400 fun i => i = "o1").errorCaught =
      true ∧
    (check_timeouts [overdueTask1, overdueTask2] 400 fun i => i = "o1").tasks =
      [overdueTask1, overdueTask2] :=
  ⟨by decide,
    (sweep_fault_contained [overdueTask1, overdueTask2] 400 (fun i => i = "o1")
      (by decide)).1,
    (sweep_fault_contained [overdueTask1, overdueTask2] 400 (fun i => i = "o1")
      (by decide)).2.1⟩

/-! ### Lemmas about the connection manager -/

theorem disconnect_entry_eq_some (c : String) (p q : String × List String)
    (h : disconnect_entry c p = some q) :
    q.1 = p.1 ∧ q.2 ⊆ p.2 ∧ c ∉ q.2 ∧ (q = p ∨ q.2 ≠ []) := by
  by_cases hc : c ∈ p.2
  · simp only [disconnect_entry, if_pos hc] at h
    by_cases hs : p.2.filter (fun d => d ≠ c) = []
    · rw [if_pos hs] at h
      cases h
    · rw [if_neg hs] at h
      obtain rfl : (p.1, p.2.filter (fun d => d ≠ c)) = q := Option.some.inj h
      refine ⟨rfl, fun x hx => (List.mem_filter.mp hx).1, ?_, Or.inr hs⟩
      intro hmem
      have := (List.mem_filter.mp hmem).2
      simp at this
  · simp only [disconnect_entry, if_neg hc] at h
    obtain rfl : p = q := Option.some.inj h
    exact ⟨rfl, fun _ hx => hx, hc, Or.inl rfl⟩

theorem disconnect_entry_id (c : String) (p : String × List String) (hc : c ∉ p.2) :
    disconnect_entry c p = some p := by
  simp [disconnect_entry, hc]

theorem disconnect_noSub (h : Hub) (c : String) : noSub (disconnect h c) c := by
  intro p hp
  obtain ⟨a, ha, hpa⟩ := List.mem_filterMap.mp hp
  exact (disconnect_entry_eq_some c a p hpa).2.2.1

theorem noSub_disconnect (h : Hub) (c d : String) (hn : noSub h c) :
    noSub (disconnect h d) c := by
  intro p hp hcp
  obtain ⟨a, ha, hpa⟩ := List.mem_filterMap.mp hp
  exact hn a ha ((disconnect_entry_eq_some d a p hpa).2.1 hcp)

theorem find?_eq_none_of_lookupActive_none (h : Hub) (c : String)
    (hn : lookupActive h c = none) :
    h.active.find? (fun p => p.1 = c) = none := by
  cases hh : h.active.find? (fun p => p.1 = c) with
  | none => rfl
  | some v =>
    rw [lookupActive, hh] at hn
    simp at hn

theorem lookupActive_disconnect_self (h : Hub) (c : String) :
    lookupActive (disconnect h c) c = none := by
  simp only [lookupActive, disconnect]
  have hfind : (h.active.filter (fun p => p.1 ≠ c)).find? (fun p => p.1 = c) = none := by
    rw [List.find?_eq_none]
    intro x hx
    have h2 := (List.mem_filter.mp hx).2
    simpa using h2
  rw [hfind]
  rfl

theorem lookupActive_none_disconnect (h : Hub) (c d : String)
    (hn : lookupActive h c = none) :
    lookupActive (disconnect h d) c = none := by
  simp only [lookupActive, disconnect]
  have hfind := find?_eq_none_of_lookupActive_none h c hn
  have hnone : (h.active.filter (fun p => p.1 ≠ d)).find? (fun p => p.1 = c) = none := by
    rw [List.find?_eq_none] at hfind ⊢
    intro x hx
    exact hfind x (List.mem_filter.mp hx).1
  rw [hnone]
  rfl

theorem noSub_subsOf (h : Hub) (c : String) (hn : noSub h c) :
    ∀ t, c ∉ subsOf h t := by
  intro t
  simp only [subsOf]
  cases hh : h.subscribers.find? (fun p => p.1 = t) with
  | none => simp
  | some q =>
    simp only [Option.map_some', Option.getD_some]
    exact hn q (List.mem_of_find?_eq_some hh)

theorem foldl_disconnect_pres (L : List String) (h : Hub) (c : String)
    (h1 : lookupActive h c = none) (h2 : noSub h c) :
    lookupActive (L.foldl disconnect h) c = none ∧ noSub (L.foldl disconnect h) c := by
  induction L generalizing h with
  | nil => exact ⟨h1, h2⟩
  | cons d L ih =>
    exact ih (disconnect h d) (lookupActive_none_disconnect h c d h1)
      (noSub_disconnect h c d h2)

theorem foldl_disconnect_removes (L : List String) (h : Hub) (c : String)
    (hc : c ∈ L) :
    lookupActive (L.foldl disconnect h) c = none ∧ noSub (L.foldl disconnect h) c := by
  induction L generalizing h with
  | nil => cases hc
  | cons d L ih =>
    by_cases hd : c = d
    · subst hd
      exact foldl_disconnect_pres L (disconnect h c) c
        (lookupActive_disconnect_self h c) (disconnect_noSub h c)
    · have hmem : c ∈ L := by
        rcases List.mem_cons.mp hc with h | h
        · exact absurd h hd
        · exact h
      exact ih (disconnect h d) hmem

theorem filterMap_id_of_eq_some {α : Type} (f : α → Option α) (l : List α)
    (hall : ∀ a ∈ l, f a = some a) : l.filterMap f = l := by
  induction l with
  | nil => rfl
  | cons a l ih =>
    rw [List.filterMap_cons, hall a (by simp)]
    rw [ih (fun b hb => hall b (by simp [hb]))]

theorem disconnect_noop (h : Hub) (c : String)
    (h1 : lookupActive h c = none) (h2 : noSub h c) :
    disconnect h c = h := by
  have ha : h.active.filter (fun p => p.1 ≠ c) = h.active := by
    apply List.filter_eq_self.mpr
    intro x hx
    have := List.find?_eq_none.mp (find?_eq_none_of_lookupActive_none h c h1) x hx
    simpa using this
  have hs : h.subscribers.filterMap (disconnect_entry c) = h.subscribers :=
    filterMap_id_of_eq_some _ _ (fun p hp => disconnect_entry_id c p (h2 p hp))
  unfold disconnect
  rw [ha, hs]

/-- C5: during `broadcast_task_update`, a send failure on one subscriber
never prevents delivery to the other subscribers — every subscriber whose
registered transport send succeeds is in the delivered list — and every
subscriber whose send fails is disconnected by the time the publish
completes: it is gone from the active-connection registry and from every
task's subscriber set. -/
theorem broadcast_isolates_failures (h : Hub) (tid : String) (sendOk : Nat → Bool) :
    (∀ c ws, c ∈ subsOf h tid → lookupActive h c = some ws → sendOk ws = true →
       c ∈ (broadcast_task_update h tid sendOk).2) ∧
    (∀ c ws, c ∈ subsOf h tid → lookupActive h c = some ws → sendOk ws = false →
       lookupActive (broadcast_task_update h tid sendOk).1 c = none ∧
       ∀ t, c ∉ subsOf (broadcast_task_update h tid sendOk).1 t) := by
  cases hh : h.subscribers.find? (fun p => p.1 = tid) with
  | none =>
    have hsub : subsOf h tid = [] := by simp [subsOf, hh]
    constructor <;> intro c ws hc <;> rw [hsub] at hc <;> cases hc
  | some entry =>
    have hsub : subsOf h tid = entry.2 := by simp [subsOf, hh]
    have hb : broadcast_task_update h tid sendOk =
        ((entry.2.filter (fun c =>
            match lookupActive h c with
            | some ws => !sendOk ws
            | none => false)).foldl disconnect h,
         entry.2.filter (fun c =>
            match lookupActive h c with
            | some ws => sendOk ws
            | none => false)) := by
      simp [broadcast_task_update, hh]
    constructor
    · intro c ws hc hl hs
      rw [hb]
      refine List.mem_filter.mpr ⟨hsub ▸ hc, ?_⟩
      rw [hl]
      exact hs
    · intro c ws hc hl hs
      have hcstale : c ∈ entry.2.filter (fun c =>
          match lookupActive h c with
          | some ws => !sendOk ws
          | none => false) := by
        refine List.mem_filter.mpr ⟨hsub ▸ hc, ?_⟩
        rw [hl]
        show (!sendOk ws) = true
        rw [hs]
        rfl
      rw [hb]
      obtain ⟨ha, hs2⟩ := foldl_disconnect_removes _ h c hcstale
      exact ⟨ha, noSub_subsOf _ c hs2⟩

/-- Witness for C5 at a concrete input: subscribers {A, B} of task "t",
A's transport (handle 1) broken, B's (handle 2) healthy: B is delivered
and A is removed from the registry and from the subscriber sets. -/
theorem broadcast_isolates_failures_witness :
    ("B" ∈ subsOf hubAB "t" ∧ lookupActive hubAB "B" = some 2 ∧
      (fun ws : Nat => ws ≠ 1) 2 = true ∧
      "B" ∈ (broadcast_task_update hubAB "t" (fun ws => ws ≠ 1)).2) ∧
    ("A" ∈ subsOf hubAB "t" ∧ lookupActive hubAB "A" = some 1 ∧
      (fun ws : Nat => ws ≠ 1) 1 = false ∧
      lookupActive (broadcast_task_update hubAB "t" (fun ws => ws ≠ 1)).1 "A" = none ∧
      "A" ∉ subsOf (broadcast_task_update hubAB "t" (fun ws => ws ≠ 1)).1 "t") :=
  ⟨⟨by decide, by decide, by decide,
    (broadcast_isolates_failures hubAB "t" (fun ws => ws ≠ 1)).1 "B" 2
      (by decide) (by decide) (by decide)⟩,
   ⟨by decide, by decide, by decide,
    ((broadcast_isolates_failures hubAB "t" (fun ws => ws ≠ 1)).2 "A" 1
      (by decide) (by decide) (by decide)).1,
    ((broadcast_isolates_failures hubAB "t" (fun ws => ws ≠ 1)).2 "A" 1
      (by decide) (by decide) (by decide)).2 "t"⟩⟩

/-- C6: `disconnect` is idempotent; after it returns the connection id is
gone from the active-connection registry and from every task's subscriber
set; and disconnecting an id that is unknown (absent from the registry and
from every subscriber set) changes nothing. -/
theorem disconnect_spec (h : Hub) (c : String) :
    disconnect (disconnect h c) c = disconnect h c ∧
    lookupActive (disconnect h c) c = none ∧
    (∀ t, c ∉ subsOf (disconnect h c) t) ∧
    ((lookupActive h c = none ∧ noSub h c) → disconnect h c = h) := by
  refine ⟨?_, lookupActive_disconnect_self h c,
    noSub_subsOf _ c (disconnect_noSub h c), fun hu => disconnect_noop h c hu.1 hu.2⟩
  exact disconnect_noop (disconnect h c) c (lookupActive_disconnect_self h c)
    (disconnect_noSub h c)

/-- Witness for C6 at concrete inputs: disconnecting "A" twice from the
two-subscriber hub, and disconnecting the unknown id "A" from a hub that
never saw it. -/
theorem disconnect_spec_witness :
    disconnect (disconnect hubAB "A") "A" = disconnect hubAB "A" ∧
    lookupActive (disconnect hubAB "A") "A" = none ∧
    ((lookupActive hubNoA "A" = none ∧ noSub hubNoA "A") ∧
      disconnect hubNoA "A" = hubNoA) :=
  ⟨(disconnect_spec hubAB "A").1, (disconnect_spec hubAB "A").2.1,
   ⟨⟨by decide, by intro p hp hmem; revert hp; simp [hubNoA]; intro hp; simp [hp] at hmem⟩,
    (disconnect_spec hubNoA "A").2.2.2
      ⟨by decide, by intro p hp hmem; revert hp; simp [hubNoA]; intro hp; simp [hp] at hmem⟩⟩⟩

theorem find?_map_replace (l : List (String × Nat)) (c : String) (ws : Nat)
    (h : l.any (fun p => p.1 = c) = true) :
    (l.map (fun p => if p.1 = c then (c, ws) else p)).find? (fun p => p.1 = c) =
      some (c, ws) := by
  induction l with
  | nil => simp at h
  | cons a l ih =>
    by_cases hac : a.1 = c
    · simp [hac]
    · have hl : l.any (fun p => p.1 = c) = true := by
        simpa [hac] using h
      simpa [hac] using ih hl

theorem find?_map_keep (l : List (String × Nat)) (c : String) (ws : Nat) (d : String)
    (hd : d ≠ c) :
    (l.map (fun p => if p.1 = c then (c, ws) else p)).find? (fun p => p.1 = d) =
      l.find? (fun p => p.1 = d) := by
  induction l with
  | nil => rfl
  | cons a l ih =>
    by_cases hac : a.1 = c
    · have h1 : ¬ (c = d) := fun hh => hd hh.symm
      have h2 : ¬ (a.1 = d) := by rw [hac]; exact h1
      simp [hac, h1, h2, ih]
    · by_cases had : a.1 = d <;> simp [hac, had, ih, hd]

theorem find?_append_replace (l : List (String × Nat)) (c : String) (ws : Nat)
    (h : l.any (fun p => p.1 = c) = false) :
    (l ++ [(c, ws)]).find? (fun p => p.1 = c) = some (c, ws) := by
  induction l with
  | nil => simp
  | cons a l ih =>
    have hparts : ¬ (a.1 = c) ∧ l.any (fun p => p.1 = c) = false := by
      simpa using h
    simpa [hparts.1] using ih hparts.2

theorem find?_append_keep (l : List (String × Nat)) (c : String) (ws : Nat) (d : String)
    (hd : d ≠ c) :
    (l ++ [(c, ws)]).find? (fun p => p.1 = d) = l.find? (fun p => p.1 = d) := by
  induction l with
  | nil =>
    have h1 : ¬ (c = d) := fun hh => hd hh.symm
    simp [h1]
  | cons a l ih => by_cases had : a.1 = d <;> simp [had, ih]

/-- C9 counterexample: the claim says a second `connect` with an
already-registered connection id is rejected rather than replacing the
existing entry.  The code performs a plain dict assignment: with "A"
registered under handle 1, a second connect of "A" with handle 2 succeeds
and replaces the entry. -/
theorem connect_overwrites :
    lookupActive hubA "A" = some 1 ∧
    (connect hubA "A" 2).active = [("A", 2)] ∧
    lookupActive (connect hubA "A" 2) "A" = some 2 := by decide

/-- C9 amended: `connect(connectionId)` registers the connection
unconditionally and never fails; when the id is already registered the new
websocket silently replaces the existing entry, while every other
connection's entry and all subscriptions are untouched. -/
theorem connect_spec (h : Hub) (c : String) (ws : Nat) :
    lookupActive (connect h c ws) c = some ws ∧
    (∀ d, d ≠ c → lookupActive (connect h c ws) d = lookupActive h d) ∧
    (connect h c ws).subscribers = h.subscribers := by
  refine ⟨?_, ?_, rfl⟩
  · simp only [lookupActive, connect]
    cases hany : h.active.any (fun p => p.1 = c) with
    | true =>
      simp only [hany, if_true]
      rw [find?_map_replace _ _ _ hany]
      rfl
    | false =>
      simp only [hany, Bool.false_eq_true, if_false]
      rw [find?_append_replace _ _ _ hany]
      rfl
  · intro d hd
    simp only [lookupActive, connect]
    cases hany : h.active.any (fun p => p.1 = c) with
    | true =>
      simp only [hany, if_true]
      rw [find?_map_keep _ _ _ _ hd]
    | false =>
      simp only [hany, Bool.false_eq_true, if_false]
      rw [find?_append_keep _ _ _ _ hd]

/-- Witness for C9's amended theorem: reconnecting the registered id "A"
replaces its entry and leaves "B" alone. -/
theorem connect_spec_witness :
    ("B" : String) ≠ "A" ∧
    lookupActive (connect hubAB "A" 7) "A" = some 7 ∧
    lookupActive (connect hubAB "A" 7) "B" = lookupActive hubAB "B" ∧
    (connect hubAB "A" 7).subscribers = hubAB.subscribers :=
  ⟨by decide, (connect_spec hubAB "A" 7).1,
    (connect_spec hubAB "A" 7).2.1 "B" (by decide), (connect_spec hubAB "A" 7).2.2⟩

theorem hubInv_iff (h : Hub) : hubInv h = true ↔ ∀ p ∈ h.subscribers, p.2 ≠ [] := by
  simp [hubInv, List.all_eq_true]

theorem hubInv_disconnect (h : Hub) (c : String) (hI : hubInv h = true) :
    hubInv (disconnect h c) = true := by
  rw [hubInv_iff] at hI ⊢
  intro p hp
  obtain ⟨a, ha, hpa⟩ := List.mem_filterMap.mp hp
  rcases (disconnect_entry_eq_some c a p hpa).2.2.2 with heq | hne
  · rw [heq]
    exact hI a ha
  · exact hne

theorem hubInv_foldl_disconnect (L : List String) (h : Hub) (hI : hubInv h = true) :
    hubInv (L.foldl disconnect h) = true := by
  induction L generalizing h with
  | nil => exact hI
  | cons d L ih => exact ih (disconnect h d) (hubInv_disconnect h d hI)

/-- C10: the subscriber map never maps a task id to an empty set — the
invariant is preserved by subscribe, unsubscribe, disconnect and publish
(broadcast), because the removal paths delete a task's entry when its last
subscriber goes away and subscribe only ever grows a set. -/
theorem hub_no_empty_subscriber_sets (h : Hub) (c tid : String) (sendOk : Nat → Bool)
    (hI : hubInv h = true) :
    hubInv (subscribe_to_task h c tid) = true ∧
    hubInv (unsubscribe_from_task h c tid) = true ∧
    hubInv (disconnect h c) = true ∧
    hubInv (broadcast_task_update h tid sendOk).1 = true := by
  refine ⟨?_, ?_, hubInv_disconnect h c hI, ?_⟩
  · rw [hubInv_iff] at hI ⊢
    intro p hp
    simp only [subscribe_to_task] at hp
    by_cases hany : h.subscribers.any (fun q => q.1 = tid) = true
    · rw [if_pos hany] at hp
      obtain ⟨a, ha, heq⟩ := List.mem_map.mp hp
      by_cases hat : a.1 = tid
      · rw [if_pos hat] at heq
        rw [← heq]
        by_cases hca : c ∈ a.2
        · simpa [hca] using hI a ha
        · simp [hca]
      · rw [if_neg hat] at heq
        rw [← heq]
        exact hI a ha
    · rw [if_neg hany] at hp
      rcases List.mem_append.mp hp with hold | hnew
      · exact hI p hold
      · rw [List.mem_singleton.mp hnew]
        simp
  · rw [hubInv_iff] at hI ⊢
    intro p hp
    simp only [unsubscribe_from_task] at hp
    obtain ⟨a, ha, hpa⟩ := List.mem_filterMap.mp hp
    by_cases hat : a.1 = tid
    · rw [if_pos hat] at hpa
      rcases (disconnect_entry_eq_some c a p hpa).2.2.2 with heq | hne
      · rw [heq]
        exact hI a ha
      · exact hne
    · rw [if_neg hat] at hpa
      rw [← Option.some.inj hpa]
      exact hI a ha
  · simp only [broadcast_task_update]
    cases hh : h.subscribers.find? (fun p => p.1 = tid) with
    | none => exact hI
    | some entry => exact hubInv_foldl_disconnect _ h hI

/-- Witness for C10 at a concrete input: the two-subscriber hub satisfies
the invariant, and so do the results of all four operations on it. -/
theorem hub_no_empty_subscriber_sets_witness :
    hubInv hubAB = true ∧
    (hubInv (subscribe_to_task hubAB "A" "t") = true ∧
      hubInv (unsubscribe_from_task hubAB "A" "t") = true ∧
      hubInv (disconnect hubAB "A") = true ∧
      hubInv (broadcast_task_update hubAB "t" (fun ws => ws ≠ 1)).1 = true) :=
  ⟨by decide, hub_no_empty_subscriber_sets hubAB "A" "t" (fun ws => ws ≠ 1) (by decide)⟩

end NovelTM
